import Mathlib

/-!
Verification of the Web-Scraping / Content-Extraction server.

This file gives a shallow embedding, in Lean 4, of the decision logic of the
server found in the repository sources:

* the request tracker rate-limit gate of the railway-optimized scraper
  (unnamed/part_006, lines 9-42 and 64-77);
* the adaptive rate limiter with human-behavior simulation
  (utils/test-enhanced-anti-blocking.js, AdaptiveRateLimiter class);
* the proxy rotation subsystem (utils/proxy-rotation.js);
* the Google Custom Search API client and its API fallback orchestration
  (unnamed/part_005);
* the railway-optimized multi-engine search orchestration
  (unnamed/part_006, searchWithRailwayOptimization);
* the search-result page parsing loop (utils/scraper.js lines 228-318,
  identical to unnamed/part_006 lines 406-496);
* the platform detection and content extraction pipeline
  (utils/scraper.js detectPlatform / extractContent) and the GET /extract
  HTTP handler (server.js lines 384-444).

External collaborators (the headless browser, the DOM, the HTML-to-Markdown
converter, and the remote search API) are modeled as oracle inputs: the data
they would return is passed in as explicit arguments, and the embedded
functions reproduce exactly the decision logic the JavaScript performs on
that data.  Randomness (Math.random draws) and clock reads (Date.now, hour
of day, day of week) are likewise explicit parameters.  JavaScript numbers
are modeled as Int (timestamps) and Rat (delays and rates); JavaScript
string operations used by the code (includes, toLowerCase, truthiness of a
string) are implemented over the character lists of Lean strings.
-/

/-! ## String helpers mirroring the JavaScript string operations -/

/-- Check that the first list is a prefix of the second, by characters.
Mirrors the positional matching used by JavaScript String.prototype.includes. -/
def charStartsWith : List Char → List Char → Bool
  | [], _ => true
  | _ :: _, [] => false
  | a :: as, b :: bs => a == b && charStartsWith as bs

/-- Check that the pattern occurs as a contiguous run inside the list. -/
def charHasSub (pat : List Char) : List Char → Bool
  | [] => charStartsWith pat []
  | b :: bs => charStartsWith pat (b :: bs) || charHasSub pat bs

/-- JavaScript s.includes(pat). -/
def strContains (s pat : String) : Bool := charHasSub pat.data s.data

/-- JavaScript s.toLowerCase(), restricted to the alphabetic mapping. -/
def lowerStr (s : String) : String := ⟨s.data.map Char.toLower⟩

/-- JavaScript string truthiness: a string is truthy iff it is nonempty. -/
def strTruthy (s : String) : Bool := s ≠ ""

/-! ## Request tracker of the railway-optimized scraper (unnamed/part_006, 9-42)

The tracker keeps the timestamps of past requests.  canMakeRequest prunes
entries older than sixty seconds and compares the remaining count against
the configured per-minute maximum. -/

namespace RequestTracker

/-- The pruning performed at the top of canMakeRequest:
this.requests = this.requests.filter(timestamp => timestamp > oneMinuteAgo). -/
def pruneRequests (requests : List Int) (now : Int) : List Int :=
  requests.filter (fun t => t > now - 60000)

/-- canMakeRequest from unnamed/part_006 lines 15-23: true iff the pruned
request list is strictly below maxRequestsPerMinute. -/
def canMakeRequest (requests : List Int) (now : Int) (maxRequestsPerMinute : Nat) : Bool :=
  (pruneRequests requests now).length < maxRequestsPerMinute

/-- Outcome of the rate-limit gate at the top of searchGoogle
(unnamed/part_006 lines 64-77): either the attempt is refused with the
rate-limit error, or it proceeds and the request is recorded. -/
inductive GateOutcome where
  | rateLimitExceeded
  | proceed (requests : List Int)
deriving DecidableEq, Repr

/-- The gate at the top of searchGoogle: throw the rate-limit error when
canMakeRequest is false, otherwise record the request and continue. -/
def searchGoogleGate (requests : List Int) (now : Int) (maxRequestsPerMinute : Nat) :
    GateOutcome :=
  if canMakeRequest requests now maxRequestsPerMinute then
    GateOutcome.proceed (pruneRequests requests now ++ [now])
  else
    GateOutcome.rateLimitExceeded

end RequestTracker

/-! ## AdaptiveRateLimiter (utils/test-enhanced-anti-blocking.js, 247-485)

State of the limiter.  Delays are rationals (JavaScript floats never reach
values where binary rounding matters here: all source constants are exact
in binary or only feed comparisons).  The failure history entries carry a
reason string in the source; only their count is read by the adaptation
logic, so entries are modeled by their timestamps. -/

namespace AdaptiveRateLimiter

structure LimiterState where
  requests : List Int
  successHistory : List Int
  failureHistory : List Int
  currentDelay : ℚ
  minDelay : ℚ
  maxDelay : ℚ
  maxRequestsPerMinute : Nat
  adaptiveEnabled : Bool
deriving Repr

/-- The constructor values of AdaptiveRateLimiter. -/
def initState : LimiterState :=
  { requests := [], successHistory := [], failureHistory := []
    currentDelay := 2000, minDelay := 2000, maxDelay := 60000
    maxRequestsPerMinute := 3, adaptiveEnabled := true }

/-- JavaScript array.slice(-n): the last n elements (all of them when the
array is shorter). -/
def sliceLast (n : Nat) (l : List Int) : List Int := l.drop (l.length - n)

/-- adaptDelayBasedOnHistory (lines 372-388).  The success rate is the
length of successHistory.slice(-10) divided by the sum of the lengths of
successHistory.slice(-10) and failureHistory.slice(-10).  When both are
empty the JavaScript division yields NaN, every comparison against NaN is
false, and the delay is left unchanged; that case is the first branch. -/
def adaptDelayBasedOnHistory (st : LimiterState) : LimiterState :=
  if !st.adaptiveEnabled then st
  else
    let recentSuccess := sliceLast 10 st.successHistory
    let recentFailures := sliceLast 10 st.failureHistory
    let total := recentSuccess.length + recentFailures.length
    if total = 0 then st
    else
      let successRate : ℚ := (recentSuccess.length : ℚ) / (total : ℚ)
      if successRate < 7/10 then
        { st with currentDelay := min st.maxDelay (st.currentDelay * (3/2)) }
      else if successRate > 9/10 ∧ st.currentDelay > st.minDelay then
        { st with currentDelay := max st.minDelay (st.currentDelay * (4/5)) }
      else st

/-- The circadian multiplier table (lines 267-276), keyed by the hour
rounded down to a 3-hour block; the source falls back to 1.0 for a missing
key, which is unreachable for hours 0-23. -/
def circadianMultiplier (circadianHour : Nat) : ℚ :=
  if circadianHour = 0 then 3/10
  else if circadianHour = 3 then 1/5
  else if circadianHour = 6 then 1/2
  else if circadianHour = 9 then 1
  else if circadianHour = 12 then 4/5
  else if circadianHour = 15 then 1
  else if circadianHour = 18 then 9/10
  else if circadianHour = 21 then 3/5
  else 1

/-- calculateHumanDelay (lines 297-339).  hour is 0-23, dayOfWeek is 0-6
with 0 = Sunday, and rand is the Math.random() draw for the jitter factor.
The final step clamps to the configured delay bounds. -/
def calculateHumanDelay (st : LimiterState) (hour dayOfWeek : Nat) (rand : ℚ) : ℚ :=
  let isWeekend : Bool := dayOfWeek == 0 || dayOfWeek == 6
  let circadianHour := hour / 3 * 3
  let cm := circadianMultiplier circadianHour
  let d1 := st.currentDelay * cm
  let d2 := if isWeekend then d1 * (1 / (7/10)) else d1
  let isWorkingHours : Bool := decide (9 ≤ hour) && decide (hour < 17)
  let isLunchBreak : Bool := decide (12 ≤ hour) && decide (hour < 13)
  let d3 := if !isWorkingHours && !isWeekend then d2 * (3/2) else d2
  let d4 := if isLunchBreak then d3 * 2 else d3
  let randomFactor : ℚ := 1 + (rand - 1/2) * 2 * (3/10)
  let d5 := d4 * randomFactor
  max st.minDelay (min st.maxDelay d5)

/-- addMicroDelays (lines 345-367).  t1, t2, t3 are the Math.random() draws
gating the thinking pause (30 percent), coffee break (5 percent) and phone
distraction (10 percent); v1, v2, v3 are the draws for their durations. -/
def addMicroDelays (t1 v1 t2 v2 t3 v3 : ℚ) : ℚ :=
  (if t1 < 3/10 then v1 * 5000 + 2000 else 0) +
  (if t2 < 1/20 then v2 * 30000 + 60000 else 0) +
  (if t3 < 1/10 then v3 * 15000 + 10000 else 0)

/-- getNextDelay (lines 394-402): the human-like base delay plus the
micro-delays.  The micro-delays are added after the base delay has been
clamped inside calculateHumanDelay; no further clamping happens. -/
def getNextDelay (st : LimiterState) (hour dayOfWeek : Nat)
    (rand t1 v1 t2 v2 t3 v3 : ℚ) : ℚ :=
  calculateHumanDelay st hour dayOfWeek rand + addMicroDelays t1 v1 t2 v2 t3 v3

/-- Reading of the spec sentence of C7, for comparison with the source:
the success rate is computed over the last ten recorded outcomes of the
chronological outcome sequence (true = success), and the same three-way
adjustment is applied. -/
def claimAdaptDelay (outcomes : List Bool) (st : LimiterState) : LimiterState :=
  if !st.adaptiveEnabled then st
  else
    let recent := outcomes.drop (outcomes.length - 10)
    if recent.length = 0 then st
    else
      let successRate : ℚ := ((recent.filter id).length : ℚ) / (recent.length : ℚ)
      if successRate < 7/10 then
        { st with currentDelay := min st.maxDelay (st.currentDelay * (3/2)) }
      else if successRate > 9/10 ∧ st.currentDelay > st.minDelay then
        { st with currentDelay := max st.minDelay (st.currentDelay * (4/5)) }
      else st

/-- The limiter state whose histories record a given chronological outcome
sequence: recordSuccess pushes the timestamp on successHistory and
recordFailure pushes it on failureHistory (bounded trimming does not
trigger below fifty entries). -/
def stateOfOutcomes (outs : List (Int × Bool)) (st : LimiterState) : LimiterState :=
  { st with
    successHistory := (outs.filter (fun p => p.2)).map (fun p => p.1)
    failureHistory := (outs.filter (fun p => !p.2)).map (fun p => p.1) }

end AdaptiveRateLimiter

/-! ## Proxy rotation (utils/proxy-rotation.js)

The failure map and usage map are JavaScript Map objects keyed by the
string server + ":" + username; they are modeled as association lists. -/

namespace ProxyRotation

structure ProxyConf where
  server : String
  username : String
  password : String
  country : String
  ptype : String
deriving DecidableEq, Repr

/-- The key used for both maps: server + ":" + username. -/
def proxyKey (p : ProxyConf) : String := p.server ++ ":" ++ p.username

structure FailureRec where
  count : Nat
  lastFailure : Int
deriving DecidableEq, Repr

/-- Association-list model of the JavaScript Map from keys to failure
records. -/
abbrev FailureMap := List (String × FailureRec)

/-- Association-list model of the JavaScript Map from keys to last-used
timestamps. -/
abbrev UsageMap := List (String × Int)

/-- Map lookup.  A JavaScript Map holds at most one entry per key, so the
association list walks to the first (only) matching entry. -/
def mapGet : FailureMap → String → Option FailureRec
  | [], _ => none
  | (k2, v2) :: rest, k => if k2 = k then some v2 else mapGet rest k

/-- Map.set: replace the entry of the key, or append a fresh one. -/
def mapSet : FailureMap → String → FailureRec → FailureMap
  | [], k, v => [(k, v)]
  | (k2, v2) :: rest, k, v =>
    if k2 = k then (k, v) :: rest else (k2, v2) :: mapSet rest k v

/-- Map.delete. -/
def mapDel : FailureMap → String → FailureMap
  | [], _ => []
  | (k2, v2) :: rest, k =>
    if k2 = k then mapDel rest k else (k2, v2) :: mapDel rest k

/-- Usage lookup with the zero default: proxyUsage.get(key) || 0. -/
def usageGet : UsageMap → String → Int
  | [], _ => 0
  | (k2, v2) :: rest, k => if k2 = k then v2 else usageGet rest k

/-- Usage Map.set. -/
def usageSet : UsageMap → String → Int → UsageMap
  | [], k, v => [(k, v)]
  | (k2, v2) :: rest, k, v =>
    if k2 = k then (k, v) :: rest else (k2, v2) :: usageSet rest k v

def MAX_FAILURES_PER_PROXY : Nat := 3

def PROXY_COOLDOWN_TIME : Int := 30 * 60 * 1000

/-- reportProxyFailure (lines 138-154): fetch the record (defaulting to
zero), increment the count, stamp the failure time. -/
def reportProxyFailure (m : FailureMap) (p : ProxyConf) (now : Int) : FailureMap :=
  let cur := (mapGet m (proxyKey p)).getD ⟨0, 0⟩
  mapSet m (proxyKey p) ⟨cur.count + 1, now⟩

/-- The body of the healthyProxies filter callback (lines 91-108) for one
proxy: keep it unless it has reached the failure threshold and is still in
cooldown; when the cooldown has elapsed, delete its failure record (the
side effect on the map) and keep it. -/
def healthFilterStep (m : FailureMap) (p : ProxyConf) (now : Int) :
    Bool × FailureMap :=
  let failures := (mapGet m (proxyKey p)).getD ⟨0, 0⟩
  if MAX_FAILURES_PER_PROXY ≤ failures.count then
    if now - failures.lastFailure < PROXY_COOLDOWN_TIME then (false, m)
    else (true, mapDel m (proxyKey p))
  else (true, m)

/-- availableProxies.filter(...) with its in-callback map mutation. -/
def filterHealthy : List ProxyConf → FailureMap → Int → List ProxyConf × FailureMap
  | [], m, _ => ([], m)
  | p :: ps, m, now =>
    let step := healthFilterStep m p now
    let rest := filterHealthy ps step.2 now
    (if step.1 then p :: rest.1 else rest.1, rest.2)

/-- Least-recently-used selection (lines 116-124): a stable sort by
lastUsed followed by taking the first element is the first proxy whose
lastUsed is minimal. -/
def selectLRU (u : UsageMap) : List ProxyConf → Option ProxyConf
  | [] => none
  | p :: ps =>
    match selectLRU u ps with
    | none => some p
    | some q => if usageGet u (proxyKey q) < usageGet u (proxyKey p) then some q else some p

/-- The pool filtering by requested type (lines 75-83): residential
entries first, then datacenter entries. -/
def availableProxies (poolType : String) (residential datacenter : List ProxyConf) :
    List ProxyConf :=
  (if poolType = "residential" ∨ poolType = "any" then residential else []) ++
  (if poolType = "datacenter" ∨ poolType = "any" then datacenter else [])

/-- selectHealthyProxy (lines 68-131).  envProxy is the environment
override returned by getEnvironmentProxy, which always wins when present.
Returns the selected proxy together with the updated failure and usage
maps. -/
def selectHealthyProxy (envProxy : Option ProxyConf) (poolType : String)
    (residential datacenter : List ProxyConf) (failures : FailureMap)
    (usage : UsageMap) (now : Int) :
    Option ProxyConf × FailureMap × UsageMap :=
  match envProxy with
  | some e => (some e, failures, usage)
  | none =>
    let available := availableProxies poolType residential datacenter
    if available.isEmpty then (none, failures, usage)
    else
      let healthy := filterHealthy available failures now
      if healthy.1.isEmpty then (none, healthy.2, usage)
      else
        match selectLRU usage healthy.1 with
        | some sel => (some sel, healthy.2, usageSet usage (proxyKey sel) now)
        | none => (none, healthy.2, usage)

end ProxyRotation

/-! ## Google Custom Search API client (unnamed/part_005) -/

namespace GoogleAPI

/-- One item of the raw API response; every field is optional, matching
the defaulting in formatResults. -/
structure ApiItem where
  title : Option String
  link : Option String
  snippet : Option String
  displayLink : Option String
deriving DecidableEq, Repr

/-- One formatted result, in the shape produced by formatResults (the
metadata passthrough fields are omitted; they copy item fields verbatim). -/
structure ApiResult where
  title : String
  url : String
  snippet : String
  displayLink : String
  position : Nat
  source : String
deriving DecidableEq, Repr

/-- The number of results requested from the API (line 60):
const num = Math.min(limit, 10). -/
def requestedNum (limit : Nat) : Nat := min limit 10

/-- formatResults (lines 114-132): map every item, defaulting missing
fields to the empty string and numbering positions from 1 in item order.
A response without an items field yields the empty list. -/
def formatResults (items : Option (List ApiItem)) : List ApiResult :=
  match items with
  | none => []
  | some its =>
    its.enum.map (fun p =>
      { title := p.2.title.getD "", url := p.2.link.getD ""
        snippet := p.2.snippet.getD "", displayLink := p.2.displayLink.getD ""
        position := p.1 + 1, source := "Google API" })

/-- GoogleSearchAPI.search (lines 50-107), with the HTTP exchange as an
oracle: apiItems maps the num parameter sent in the request to the items
array of the response; search puts num = requestedNum limit on the wire.
Configuration and quota failures throw. -/
def search (configured withinLimits : Bool) (limit : Nat)
    (apiItems : Nat → Option (List ApiItem)) : Except String (List ApiResult) :=
  if !configured then Except.error "Google Custom Search API not configured"
  else if !withinLimits then Except.error "Daily API limit reached"
  else Except.ok (formatResults (apiItems (requestedNum limit)))

end GoogleAPI

/-! ## Search engines and orchestration (unnamed/part_005 and part_006) -/

namespace Orchestration

/-- A structured search result, as produced by the scraping engines.  The
source tag is optional: only some code paths attach one. -/
structure SearchHit where
  title : String
  link : String
  snippet : String
  displayUrl : String
  position : Nat
  source : Option String
deriving DecidableEq, Repr

/-- Outcome of running one engine: a list of structured hits, or a thrown
error carrying its message. -/
inductive EngineOut where
  | ok (hits : List SearchHit)
  | err (msg : String)
deriving DecidableEq, Repr

/-- The engines of the fallback chain. -/
inductive Engine where
  | google
  | duckduckgo
  | officialApi
deriving DecidableEq, Repr

/-- The error-message classification of the catch block of
searchWithRailwayOptimization (lines 714-718): these substrings mark the
failure as a block page or a navigation/network timeout. -/
def isBlockingOrTimeoutMsg (m : String) : Bool :=
  strContains m "Google is blocking" || strContains m "sorry" ||
  strContains m "captcha" || strContains m "navigation" ||
  strContains m "timeout"

/-- The production-only network-error classification (line 724). -/
def isNetErrMsg (m : String) : Bool :=
  strContains m "net::" || strContains m "ERR_"

/-- The recent-request count read by searchWithRailwayOptimization (lines
694-696): requestTracker.requests.filter(req => Date.now() - req < 300000).
The tracker records the timestamp of every attempt that passes the
rate-limit gate, successful or not; no outcome is stored. -/
def recentRequestCount (requests : List Int) (now : Int) : Nat :=
  (requests.filter (fun t => now - t < 300000)).length

/-- Result of the orchestration: what is returned or thrown, plus the
engines attempted in order. -/
structure RailwayOut where
  result : Except String (List SearchHit)
  trace : List Engine
deriving Repr

/-- searchWithRailwayOptimization (lines 687-731), with the two scraping
engines as oracles.  In Railway production mode, when at least two request
timestamps lie within the last five minutes, DuckDuckGo is tried first and
Google is the fallback.  Otherwise Google runs first; its hits are tagged
with source Google and returned even when the list is empty; on a thrown
error whose message matches the blocking/timeout classification (or, in
production, the network classification) DuckDuckGo is tried, and any other
error propagates. -/
def searchWithRailwayOptimization (isProduction : Bool) (requests : List Int)
    (now : Int) (googleOut ddgOut : EngineOut) : RailwayOut :=
  if isProduction ∧ 2 ≤ recentRequestCount requests now then
    match ddgOut with
    | EngineOut.ok hits => ⟨Except.ok hits, [Engine.duckduckgo]⟩
    | EngineOut.err _ =>
      match googleOut with
      | EngineOut.ok hits => ⟨Except.ok hits, [Engine.duckduckgo, Engine.google]⟩
      | EngineOut.err m => ⟨Except.error m, [Engine.duckduckgo, Engine.google]⟩
  else
    match googleOut with
    | EngineOut.ok hits =>
      ⟨Except.ok (hits.map (fun h => { h with source := some "Google" })), [Engine.google]⟩
    | EngineOut.err m =>
      if isBlockingOrTimeoutMsg m then
        match ddgOut with
        | EngineOut.ok hits => ⟨Except.ok hits, [Engine.google, Engine.duckduckgo]⟩
        | EngineOut.err m2 => ⟨Except.error m2, [Engine.google, Engine.duckduckgo]⟩
      else if isProduction ∧ isNetErrMsg m then
        match ddgOut with
        | EngineOut.ok hits => ⟨Except.ok hits, [Engine.google, Engine.duckduckgo]⟩
        | EngineOut.err m2 => ⟨Except.error m2, [Engine.google, Engine.duckduckgo]⟩
      else ⟨Except.error m, [Engine.google]⟩

/-- Result of the scrape-then-API fallback: the outcome with its source
tag, plus whether the official API was attempted. -/
structure ApiFallbackOut where
  result : Except String (List SearchHit × String)
  apiAttempted : Bool
deriving Repr

/-- searchWithApiFallback (unnamed/part_005, lines 221-265).  The scraping
function and the API call are oracles.  Scraping results are returned when
nonempty; an empty list or a thrown error falls through to the API, which
runs only when configured and within its daily quota; when every method
fails the aggregate error is thrown. -/
def searchWithApiFallback (scrapeOut : EngineOut)
    (apiConfigured apiWithinLimits : Bool) (apiOut : EngineOut) : ApiFallbackOut :=
  let tryApi : ApiFallbackOut :=
    if apiConfigured ∧ apiWithinLimits then
      match apiOut with
      | EngineOut.ok hits =>
        if 0 < hits.length then ⟨Except.ok (hits, "api"), true⟩
        else ⟨Except.error "All search methods failed", true⟩
      | EngineOut.err _ => ⟨Except.error "All search methods failed", true⟩
    else ⟨Except.error "All search methods failed", false⟩
  match scrapeOut with
  | EngineOut.ok hits =>
    if 0 < hits.length then ⟨Except.ok (hits, "scraping"), false⟩ else tryApi
  | EngineOut.err _ => tryApi

/-- The attempt outcomes named by the specification. -/
inductive Outcome where
  | success
  | blocked
  | transientError
  | empty
deriving DecidableEq, Repr

/-- An entry of the attempt log the specification describes: an engine, an
outcome and a timestamp. -/
structure Attempt where
  engine : Engine
  outcome : Outcome
  ts : Int
deriving DecidableEq, Repr

/-- Reading of the spec sentence of C6, for comparison with the source:
start at the secondary engine exactly when the log shows at least two
blocked or transientError outcomes for the primary engine within the last
five minutes. -/
def claimFirstEngine (log : List Attempt) (now : Int) : Engine :=
  let recentBad := log.filter (fun a =>
    a.engine == Engine.google &&
    (a.outcome == Outcome.blocked || a.outcome == Outcome.transientError) &&
    now - a.ts < 300000)
  if 2 ≤ recentBad.length then Engine.duckduckgo else Engine.google

end Orchestration

/-! ## Search-result page parsing (utils/scraper.js, 228-318)

The page.evaluate extraction loop, identical in unnamed/part_006 lines
406-496.  The DOM is modeled by its observable shape: for each result
container, the text of the first matching title element (if any), the
anchors in document order (an anchor is its href attribute when present),
and the texts of the first matching snippet and displayed-URL elements. -/

namespace ResultParsing

/-- One result container as the selector queries see it.  anchors lists
the href values of the anchor elements in order; none stands for an anchor
without an href attribute (whose href property reads as the empty
string). -/
structure Container where
  titleText : Option String
  anchors : List (Option String)
  snippetText : Option String
  displayUrlText : Option String
deriving DecidableEq, Repr

structure ParsedResult where
  title : String
  link : String
  snippet : String
  displayUrl : String
  position : Nat
deriving DecidableEq, Repr

/-- The self-referential link test used twice in the loop:
link.includes(googlecomsearch path). -/
def isSelfLink (link : String) : Bool := strContains link "google.com/search"

/-- The href property of an anchor: the attribute value, or the empty
string when the attribute is absent. -/
def anchorHref (a : Option String) : String := a.getD ""

/-- The link-selection loop over the selectors a[href] then a: the first
anchor carrying an href wins when its href is truthy and not
self-referential; otherwise the loop leaves the last query standing, the
first anchor of the container whatever its href. -/
def pickLink (c : Container) : Option String :=
  match c.anchors.find? (fun a => a.isSome) with
  | some a =>
    if strTruthy (anchorHref a) ∧ ¬ isSelfLink (anchorHref a) then some (anchorHref a)
    else (c.anchors.head?).map anchorHref
  | none => (c.anchors.head?).map anchorHref

/-- The body of the extraction loop for the container at index i: require
a title element and a link element, then push the result only when the
title and link are truthy and the link is not self-referential; the
position stored is i + 1 for the container index i. -/
def extractFromContainer (i : Nat) (c : Container) : Option ParsedResult :=
  match c.titleText, pickLink c with
  | some t, some l =>
    if strTruthy t ∧ strTruthy l ∧ ¬ isSelfLink l then
      some { title := t, link := l, snippet := (c.snippetText).getD ""
             displayUrl := (c.displayUrlText).getD "", position := i + 1 }
    else none
  | _, _ => none

/-- The extraction loop (lines 249-315): iterate over the first
min(containers, maxResults) containers, keeping the successfully extracted
results in order. -/
def extractSearchResults (containers : List Container) (maxResults : Nat) :
    List ParsedResult :=
  ((containers.take maxResults).enum).filterMap (fun p => extractFromContainer p.1 p.2)

end ResultParsing

/-! ## Platform detection, content extraction and the /extract endpoint
(utils/scraper.js 332-729 and server.js 384-444) -/

namespace Extraction

/-- The parsed URL as the JavaScript URL object exposes it; URL parsing
itself is a black-box collaborator. -/
structure UrlParts where
  hostname : String
  pathname : String
deriving DecidableEq, Repr

/-- The platform classification record returned by detectPlatform. -/
structure PlatformInfo where
  platform : String
  requiresAuth : Bool
  publicContentPossible : Bool
deriving DecidableEq, Repr

/-- detectPlatform (utils/scraper.js lines 332-372, identical in
unnamed/part_006 lines 738-778).  The hostname is lowercased before the
substring tests; the Facebook public-content test checks the pages path
inside the hostname, as the source does. -/
def detectPlatform (u : UrlParts) : PlatformInfo :=
  let hostname := lowerStr u.hostname
  if strContains hostname "linkedin.com" then
    let isCompanyPage := strContains u.pathname "/company/"
    let isSchoolPage := strContains u.pathname "/school/"
    let isPublicPost := strContains u.pathname "/posts/" ∧ ¬ strContains u.pathname "/in/"
    let isShowcase := strContains u.pathname "/showcase/"
    { platform := "linkedin", requiresAuth := true
      publicContentPossible := isCompanyPage ∨ isSchoolPage ∨ isPublicPost ∨ isShowcase }
  else if strContains hostname "facebook.com" ∨ strContains hostname "fb.com" then
    { platform := "facebook", requiresAuth := true
      publicContentPossible := strContains hostname "facebook.com/pages" }
  else if strContains hostname "twitter.com" ∨ strContains hostname "x.com" then
    { platform := "twitter", requiresAuth := false, publicContentPossible := true }
  else
    { platform := "general", requiresAuth := false, publicContentPossible := true }

/-- The extracted-content object assembled by extractContent.  Optional
fields model properties that only some return branches carry: a JavaScript
property that was never assigned reads as undefined, which is falsy. -/
structure ExtractedContent where
  title : String
  markdown : String
  url : String
  extractionType : String
  platform : Option String
  loginRequired : Bool
  isEmpty : Bool
deriving DecidableEq, Repr

/-- What the browser and converter collaborators hand back for a
navigation: the raw page HTML, the page title, the trimmed visible body
text, the final URL, and the cleaned Markdown that the Turndown conversion
plus cleanup of the selected fragment produces. -/
structure PageData where
  pageContent : String
  pageTitle : String
  bodyText : String
  finalUrl : String
  cleanMarkdown : String
deriving DecidableEq, Repr

/-- The login indicator phrases (utils/scraper.js lines 449-460). -/
def loginIndicators : List String :=
  ["sign in", "log in", "login", "authentication required", "please sign in",
   "member login", "join linkedin", "this content is not available",
   "linkedin login", "access linkedin"]

/-- Capitalization used for the empty-content fallback title:
platform.charAt(0).toUpperCase() + platform.slice(1). -/
def capitalizeStr (s : String) : String :=
  match s.data with
  | [] => ""
  | c :: cs => ⟨Char.toUpper c :: cs⟩

/-- The pre-navigation short-circuit test (utils/scraper.js line 386):
platformInfo.platform is linkedin, requiresAuth holds, and there is no
public-content exception. -/
def isLinkedinAuthWall (p : PlatformInfo) : Bool :=
  p.platform == "linkedin" && p.requiresAuth && !p.publicContentPossible

/-- The login-indicator scan (lines 462-464). -/
def hasLoginRequirement (page : PageData) : Bool :=
  loginIndicators.any (fun ind => strContains (lowerStr page.pageContent) (lowerStr ind))

/-- contentLength (line 471): length of the trimmed visible body text. -/
def contentLength (page : PageData) : Nat := page.bodyText.length

/-- isEmptyContent (line 472). -/
def isEmptyContent (page : PageData) : Bool := contentLength page < 100

/-- isLinkedInTitle (line 473). -/
def isLinkedInTitle (page : PageData) : Bool :=
  strContains (lowerStr page.pageTitle) "linkedin" || page.pageTitle == ""

/-- The post-navigation LinkedIn blocking test (lines 476-478). -/
def linkedinBlockCheck (p : PlatformInfo) (page : PageData) : Bool :=
  p.platform == "linkedin" &&
    (hasLoginRequirement page || isEmptyContent page || isLinkedInTitle page ||
      decide (contentLength page < 200))

/-- The empty-content fallback test (line 687). -/
def emptyContentCheck (p : PlatformInfo) (page : PageData) : Bool :=
  decide (page.cleanMarkdown.length < 50) && !(p.platform == "general")

/-- extractContent (utils/scraper.js lines 381-729), with the navigation
modeled by the page oracle and instrumented with the count of navigations
performed.  The advisory markdown bodies are long literal templates in the
source; they are represented here by their leading heading, which is all
the claims inspect.  Control flow: the LinkedIn pre-navigation
short-circuit first; otherwise navigate once, apply the login-wall
heuristics, the LinkedIn post-navigation advisory, the empty-content
fallback, and the normal return. -/
def extractContent (u : UrlParts) (urlStr : String) (fullPage : Bool)
    (page : PageData) : ExtractedContent × Nat :=
  let platformInfo := detectPlatform u
  if isLinkedinAuthWall platformInfo then
    ({ title := "LinkedIn Content Requires Authentication"
       markdown := "# LinkedIn Content Not Available"
       url := urlStr, extractionType := "authentication-required"
       platform := some "linkedin", loginRequired := false, isEmpty := false }, 0)
  else if linkedinBlockCheck platformInfo page then
    ({ title := if strTruthy page.pageTitle then page.pageTitle
                else "LinkedIn Content Requires Authentication"
       markdown := "# LinkedIn Content Not Available"
       url := urlStr, extractionType := "authentication-blocked"
       platform := some "linkedin", loginRequired := true, isEmpty := false }, 1)
  else if emptyContentCheck platformInfo page then
    ({ title := if strTruthy page.pageTitle then page.pageTitle
                else capitalizeStr platformInfo.platform ++ " Content Not Available"
       markdown := "# Content Not Available"
       url := page.finalUrl, extractionType := "empty-content"
       platform := some platformInfo.platform, loginRequired := false, isEmpty := true }, 1)
  else
    ({ title := page.pageTitle, markdown := page.cleanMarkdown
       url := page.finalUrl
       extractionType := if fullPage then "full-page" else "main-content"
       platform := none, loginRequired := false, isEmpty := false }, 1)

/-- The observable HTTP answer of the /extract handler: the status code
and whether the body carries the suggestions object and the message. -/
structure HttpAnswer where
  status : Nat
  hasSuggestions : Bool
  hasMessage : Bool
deriving DecidableEq, Repr

/-- The branch of the /extract handler after extraction (server.js lines
412-436): status 422 with suggestions and message exactly when
content.platform is truthy and content.loginRequired or content.isEmpty is
set; otherwise a plain 200 body. -/
def extractRespond (content : ExtractedContent) : HttpAnswer :=
  let platformTruthy :=
    match content.platform with
    | some p => strTruthy p
    | none => false
  if platformTruthy && (content.loginRequired || content.isEmpty) then
    { status := 422, hasSuggestions := true, hasMessage := true }
  else
    { status := 200, hasSuggestions := false, hasMessage := false }

/-- The /extract endpoint (server.js lines 384-444): 400 when the url
parameter is missing or fails URL parsing (an external check, passed as
urlValid), otherwise the response for the extracted content. -/
def extractEndpoint (urlParam : Option String) (urlValid : Bool)
    (content : ExtractedContent) : HttpAnswer :=
  match urlParam with
  | none => { status := 400, hasSuggestions := false, hasMessage := false }
  | some _ =>
    if ¬ urlValid then { status := 400, hasSuggestions := false, hasMessage := false }
    else extractRespond content

end Extraction

/-! ## Concrete fixtures used by the closed witness and counterexample
statements -/

namespace Fixtures

open Orchestration ResultParsing Extraction ProxyRotation

/-- A sample structured hit. -/
def sampleHit : SearchHit :=
  { title := "Example Domain", link := "https://example.com/"
    snippet := "Example snippet", displayUrl := "example.com"
    position := 1, source := none }

/-- A result page with seven raw containers of which the second carries
only a self-referential link back into the search engine. -/
def pageWithSelfLink : List Container :=
  [ ⟨some "Result A", [some "https://a.example.com/"], some "about a", some "a.example.com"⟩,
    ⟨some "Result B", [some "https://www.google.com/search?q=b"], none, none⟩,
    ⟨some "Result C", [some "https://c.example.com/"], none, none⟩,
    ⟨some "Result D", [some "https://d.example.com/"], none, none⟩,
    ⟨some "Result E", [some "https://e.example.com/"], none, none⟩,
    ⟨some "Result F", [some "https://f.example.com/"], none, none⟩,
    ⟨some "Result G", [some "https://g.example.com/"], none, none⟩ ]

/-- A result page with seven raw containers that all extract cleanly. -/
def cleanPage : List Container :=
  [ ⟨some "Result A", [some "https://a.example.com/"], none, none⟩,
    ⟨some "Result B", [some "https://b.example.com/"], none, none⟩,
    ⟨some "Result C", [some "https://c.example.com/"], none, none⟩,
    ⟨some "Result D", [some "https://d.example.com/"], none, none⟩,
    ⟨some "Result E", [some "https://e.example.com/"], none, none⟩,
    ⟨some "Result F", [some "https://f.example.com/"], none, none⟩,
    ⟨some "Result G", [some "https://g.example.com/"], none, none⟩ ]

/-- A page oracle for a navigation that returned nothing of note. -/
def blankPage : PageData := ⟨"", "", "", "", ""⟩

/-- A LinkedIn profile URL: matched by no public-content pattern. -/
def linkedinProfileUrl : UrlParts := ⟨"www.linkedin.com", "/in/alice"⟩

/-- A LinkedIn company URL: the company pattern is a public-content
exception, so navigation happens. -/
def linkedinCompanyUrl : UrlParts := ⟨"www.linkedin.com", "/company/acme"⟩

/-- A Facebook profile URL: classified as requiring authentication with no
public-content exception. -/
def facebookProfileUrl : UrlParts := ⟨"www.facebook.com", "/zuck"⟩

/-- A sample proxy endpoint from the static pool. -/
def sampleProxy : ProxyConf :=
  ⟨"proxy1.example.com:8080", "user1", "pass1", "US", "residential"⟩

/-- The failure map after three reported failures of the sample proxy at
times 1000, 2000 and 3000. -/
def quarantinedFailures : ProxyRotation.FailureMap :=
  ProxyRotation.reportProxyFailure (ProxyRotation.reportProxyFailure
    (ProxyRotation.reportProxyFailure [] sampleProxy 1000) sampleProxy 2000)
    sampleProxy 3000

/-- A chronological outcome history: ten successes (timestamps 1-10)
followed by four failures (timestamps 11-14). -/
def tenThenFour : List (Int × Bool) :=
  [(1, true), (2, true), (3, true), (4, true), (5, true), (6, true), (7, true),
   (8, true), (9, true), (10, true), (11, false), (12, false), (13, false), (14, false)]

end Fixtures

/-! ## Theorems -/

/-- Helper: a filter over a list where the predicate fails everywhere is
empty. -/
theorem filter_eq_nil_of_none {α : Type} (p : α → Bool) (l : List α)
    (h : ∀ a ∈ l, p a = false) : l.filter p = [] := by
  induction l with
  | nil => rfl
  | cons a l ih =>
    have ha := h a (List.mem_cons_self a l)
    simp [List.filter, ha, ih (fun b hb => h b (List.mem_cons_of_mem a hb))]

/-- Claim C1: with maxRequestsPerMinute = N, an attempt begun while N (or
more) request timestamps lie inside the rolling sixty-second window is
refused by the searchGoogle gate with the rate-limit error signalled to
the caller, and an attempt begun after the window has fully elapsed (every
recorded timestamp at least sixty seconds old) proceeds. -/
theorem c1_rate_limit_gate (N : Nat) (hN : 1 ≤ N)
    (requests : List Int) (now : Int)
    (hfull : N ≤ (RequestTracker.pruneRequests requests now).length)
    (requests2 : List Int) (now2 : Int)
    (helapsed : ∀ t ∈ requests2, t ≤ now2 - 60000) :
    RequestTracker.searchGoogleGate requests now N =
      RequestTracker.GateOutcome.rateLimitExceeded ∧
    RequestTracker.searchGoogleGate requests2 now2 N =
      RequestTracker.GateOutcome.proceed [now2] := by
  have h1 : RequestTracker.canMakeRequest requests now N = false := by
    simp only [RequestTracker.canMakeRequest, decide_eq_false_iff_not, not_lt]
    exact hfull
  have h2 : RequestTracker.pruneRequests requests2 now2 = [] := by
    apply filter_eq_nil_of_none
    intro t ht
    have := helapsed t ht
    simp only [decide_eq_false_iff_not, not_lt]
    omega
  have h3 : RequestTracker.canMakeRequest requests2 now2 N = true := by
    simp only [RequestTracker.canMakeRequest, h2, List.length_nil, decide_eq_true_eq]
    omega
  constructor
  · simp [RequestTracker.searchGoogleGate, h1]
  · simp [RequestTracker.searchGoogleGate, h3, h2]

/-- Witness for C1 at concrete inputs: cap 3, three timestamps inside the
window refuse the fourth attempt; two timestamps a full minute old let the
attempt proceed. -/
theorem c1_rate_limit_gate_witness :
    RequestTracker.searchGoogleGate [100000, 110000, 120000] 120001 3 =
      RequestTracker.GateOutcome.rateLimitExceeded ∧
    RequestTracker.searchGoogleGate [1000, 2000] 70000 3 =
      RequestTracker.GateOutcome.proceed [70000] :=
  c1_rate_limit_gate 3 (by decide) [100000, 110000, 120000] 120001 (by decide)
    [1000, 2000] 70000 (by decide)

/-- Helper: the length of formatResults on a present items array is the
length of that array. -/
theorem formatResults_length (its : List GoogleAPI.ApiItem) :
    (GoogleAPI.formatResults (some its)).length = its.length := by
  simp [GoogleAPI.formatResults]

/-- Claim C10: the official API client asks the API for
min(limit, 10) results — exactly 10 whenever the caller requested more —
and therefore, whenever the API honors the num parameter of the request,
the formatted result list of a successful GoogleSearchAPI.search call
never holds more than 10 entries. -/
theorem c10_api_caps_at_ten (limit : Nat) (hlimit : 10 < limit)
    (apiItems : Nat → Option (List GoogleAPI.ApiItem))
    (hhonors : ∀ n its, apiItems n = some its → its.length ≤ n)
    (res : List GoogleAPI.ApiResult)
    (hok : GoogleAPI.search true true limit apiItems = Except.ok res) :
    GoogleAPI.requestedNum limit = 10 ∧ res.length ≤ 10 := by
  have hnum : GoogleAPI.requestedNum limit = 10 := by
    simp only [GoogleAPI.requestedNum]
    omega
  refine ⟨hnum, ?_⟩
  simp only [GoogleAPI.search, Bool.not_true, Bool.false_eq_true, if_false,
    reduceIte] at hok
  rw [hnum] at hok
  have hres : res = GoogleAPI.formatResults (apiItems 10) := by
    cases hok
    rfl
  cases hresp : apiItems 10 with
  | none =>
    rw [hres, hresp]
    simp [GoogleAPI.formatResults]
  | some its =>
    have hlen := hhonors 10 its hresp
    rw [hres, hresp, formatResults_length]
    exact hlen

/-- Witness for C10: limit 25 with an API that returns ten items. -/
theorem c10_api_caps_at_ten_witness :
    GoogleAPI.requestedNum 25 = 10 ∧
      (GoogleAPI.formatResults (some (List.replicate (min 10 10)
        (⟨none, none, none, none⟩ : GoogleAPI.ApiItem)))).length ≤ 10 :=
  c10_api_caps_at_ten 25 (by decide)
    (fun n => some (List.replicate (min n 10) ⟨none, none, none, none⟩))
    (by intro n its h; cases h; simp)
    _ rfl

/-- Counterexample to claim C2: with the request tracker quiet and the
primary engine completing with zero results, searchWithRailwayOptimization
returns the empty result set to the caller and never attempts the
secondary engine, even though the secondary would have produced a hit. -/
theorem c2_empty_counterexample :
    (Orchestration.searchWithRailwayOptimization false [] 0
        (Orchestration.EngineOut.ok [])
        (Orchestration.EngineOut.ok [Fixtures.sampleHit])).result = Except.ok [] ∧
    (Orchestration.searchWithRailwayOptimization false [] 0
        (Orchestration.EngineOut.ok [])
        (Orchestration.EngineOut.ok [Fixtures.sampleHit])).trace =
      [Orchestration.Engine.google] := by
  constructor <;> rfl

/-- Claim C2 as amended: a primary failure classified blocked or
transient (its message carries a blocking or timeout marker) always
advances to the secondary engine; a primary attempt that completes with
zero results is returned as the empty result set by
searchWithRailwayOptimization without attempting the secondary engine;
the empty classification advances to the official API only in
searchWithApiFallback, when the API is configured and within quota. -/
theorem c2_failure_classes_advance
    (isProd : Bool) (requests : List Int) (now : Int) (m : String)
    (ddgOut : Orchestration.EngineOut)
    (hm : Orchestration.isBlockingOrTimeoutMsg m = true)
    (hits : List Orchestration.SearchHit)
    (hquiet : ¬ (isProd ∧ 2 ≤ Orchestration.recentRequestCount requests now))
    (apiOut : Orchestration.EngineOut) :
    Orchestration.Engine.duckduckgo ∈
      (Orchestration.searchWithRailwayOptimization isProd requests now
        (Orchestration.EngineOut.err m) ddgOut).trace ∧
    (Orchestration.searchWithRailwayOptimization isProd requests now
        (Orchestration.EngineOut.ok hits) ddgOut) =
      ⟨Except.ok (hits.map (fun h => { h with source := some "Google" })),
        [Orchestration.Engine.google]⟩ ∧
    (Orchestration.searchWithApiFallback (Orchestration.EngineOut.ok [])
        true true apiOut).apiAttempted = true := by
  refine ⟨?_, ?_, ?_⟩
  · unfold Orchestration.searchWithRailwayOptimization
    split
    · cases ddgOut with
      | ok hits2 => simp
      | err m2 => simp
    · cases ddgOut with
      | ok hits2 => simp [hm]
      | err m2 => simp [hm]
  · unfold Orchestration.searchWithRailwayOptimization
    rw [if_neg hquiet]
  · unfold Orchestration.searchWithApiFallback
    cases apiOut with
    | ok hits2 =>
      by_cases h : 0 < hits2.length <;> simp [h]
    | err m2 => simp

/-- Witness for C2 as amended, at concrete inputs: a blocked primary
message advances to DuckDuckGo, a zero-result primary is returned
untouched, and a zero-result scrape inside searchWithApiFallback reaches
the API. -/
theorem c2_failure_classes_advance_witness :
    Orchestration.Engine.duckduckgo ∈
      (Orchestration.searchWithRailwayOptimization false [] 0
        (Orchestration.EngineOut.err "Google is blocking search results")
        (Orchestration.EngineOut.ok [Fixtures.sampleHit])).trace ∧
    (Orchestration.searchWithRailwayOptimization false [] 0
        (Orchestration.EngineOut.ok []) (Orchestration.EngineOut.ok [Fixtures.sampleHit])) =
      ⟨Except.ok (List.map (fun h => { h with source := some "Google" })
          ([] : List Orchestration.SearchHit)),
        [Orchestration.Engine.google]⟩ ∧
    (Orchestration.searchWithApiFallback (Orchestration.EngineOut.ok [])
        true true (Orchestration.EngineOut.ok [Fixtures.sampleHit])).apiAttempted = true :=
  c2_failure_classes_advance false [] 0 "Google is blocking search results"
    (Orchestration.EngineOut.ok [Fixtures.sampleHit]) (by decide) []
    (by simp [Orchestration.recentRequestCount])
    (Orchestration.EngineOut.ok [Fixtures.sampleHit])

/-- Counterexample to claim C6: in Railway production mode the chain
starts at the secondary engine as soon as two request timestamps of any
outcome lie within the last five minutes; here the attempt log records
two successes and no blocked or transientError outcome at all, yet the
first engine attempted is DuckDuckGo where the claim requires the primary
engine. -/
theorem c6_reorder_counterexample :
    Orchestration.claimFirstEngine
      [⟨Orchestration.Engine.google, Orchestration.Outcome.success, 990000⟩,
       ⟨Orchestration.Engine.google, Orchestration.Outcome.success, 995000⟩] 1000000 =
      Orchestration.Engine.google ∧
    (Orchestration.searchWithRailwayOptimization true [990000, 995000] 1000000
        (Orchestration.EngineOut.ok []) (Orchestration.EngineOut.ok [])).trace.head? =
      some Orchestration.Engine.duckduckgo := by
  constructor <;> rfl

/-- Claim C6 as amended: the first engine attempted by
searchWithRailwayOptimization is the primary engine, except in Railway
production mode when at least two request timestamps of any outcome lie
within the last five minutes of the request tracker, in which case the
secondary engine is attempted first. -/
theorem c6_first_engine
    (isProd : Bool) (requests : List Int) (now : Int)
    (googleOut ddgOut : Orchestration.EngineOut) :
    (Orchestration.searchWithRailwayOptimization isProd requests now
        googleOut ddgOut).trace.head? =
      some (if isProd ∧ 2 ≤ Orchestration.recentRequestCount requests now then
              Orchestration.Engine.duckduckgo
            else Orchestration.Engine.google) := by
  unfold Orchestration.searchWithRailwayOptimization
  split
  · cases ddgOut with
    | ok hits => rfl
    | err m => cases googleOut <;> rfl
  · cases googleOut with
    | ok hits => rfl
    | err m =>
      by_cases hb : Orchestration.isBlockingOrTimeoutMsg m = true
      · cases ddgOut <;> simp [hb]
      · by_cases hn : isProd = true ∧ Orchestration.isNetErrMsg m = true
        · cases ddgOut <;> simp [hb, hn]
        · cases ddgOut <;> simp [hb, hn]

/-- Counterexample to claim C7: for a history of ten successes followed by
four failures, the success rate over the last ten recorded outcomes is
6/10, below 70 percent, so the claim demands the delay grow from 2000 to
3000; the code instead divides the last ten successes by the last ten
successes plus the last four failures, gets 10/14, and leaves the delay
unchanged at 2000. -/
theorem c7_adapt_counterexample :
    (AdaptiveRateLimiter.adaptDelayBasedOnHistory
      (AdaptiveRateLimiter.stateOfOutcomes Fixtures.tenThenFour
        AdaptiveRateLimiter.initState)).currentDelay = 2000 ∧
    (AdaptiveRateLimiter.claimAdaptDelay (Fixtures.tenThenFour.map (fun p => p.2))
      (AdaptiveRateLimiter.stateOfOutcomes Fixtures.tenThenFour
        AdaptiveRateLimiter.initState)).currentDelay = 3000 := by
  constructor <;>
    norm_num [AdaptiveRateLimiter.adaptDelayBasedOnHistory,
      AdaptiveRateLimiter.claimAdaptDelay, AdaptiveRateLimiter.stateOfOutcomes,
      AdaptiveRateLimiter.initState, AdaptiveRateLimiter.sliceLast,
      Fixtures.tenThenFour, min_def, max_def]

/-- Claim C7 as amended: with adaptation enabled, the delay adjustment of
adaptDelayBasedOnHistory is driven by the rate s / (s + f) where s and f
are the lengths of the last up-to-ten entries of the success history and
of the failure history taken separately (not of the merged last ten
outcomes): with no recorded history the delay is unchanged; below 70
percent the delay is multiplied by 1.5 and capped at maxDelay; above 90
percent with the delay above minDelay it is multiplied by 0.8 and floored
at minDelay; otherwise it is unchanged. -/
theorem c7_adapt_characterization (st : AdaptiveRateLimiter.LimiterState)
    (hEnabled : st.adaptiveEnabled = true) (s f : Nat)
    (hs : s = (AdaptiveRateLimiter.sliceLast 10 st.successHistory).length)
    (hf : f = (AdaptiveRateLimiter.sliceLast 10 st.failureHistory).length) :
    (s + f = 0 → AdaptiveRateLimiter.adaptDelayBasedOnHistory st = st) ∧
    (0 < s + f → (s : ℚ) / ((s + f : Nat) : ℚ) < 7/10 →
      AdaptiveRateLimiter.adaptDelayBasedOnHistory st =
        { st with currentDelay := min st.maxDelay (st.currentDelay * (3/2)) }) ∧
    (0 < s + f → 9/10 < (s : ℚ) / ((s + f : Nat) : ℚ) → st.minDelay < st.currentDelay →
      AdaptiveRateLimiter.adaptDelayBasedOnHistory st =
        { st with currentDelay := max st.minDelay (st.currentDelay * (4/5)) }) ∧
    (0 < s + f → 7/10 ≤ (s : ℚ) / ((s + f : Nat) : ℚ) →
      ((s : ℚ) / ((s + f : Nat) : ℚ) ≤ 9/10 ∨ ¬ st.minDelay < st.currentDelay) →
      AdaptiveRateLimiter.adaptDelayBasedOnHistory st = st) := by
  subst hs hf
  refine ⟨?_, ?_, ?_, ?_⟩
  · intro h0
    simp only [AdaptiveRateLimiter.adaptDelayBasedOnHistory, hEnabled, Bool.not_true,
      Bool.false_eq_true, if_false]
    rw [if_pos h0]
  · intro hpos hrate
    simp only [AdaptiveRateLimiter.adaptDelayBasedOnHistory, hEnabled, Bool.not_true,
      Bool.false_eq_true, if_false]
    rw [if_neg (by omega), if_pos hrate]
  · intro hpos hrate hdelay
    simp only [AdaptiveRateLimiter.adaptDelayBasedOnHistory, hEnabled, Bool.not_true,
      Bool.false_eq_true, if_false]
    rw [if_neg (by omega), if_neg (by linarith), if_pos ⟨hrate, hdelay⟩]
  · intro hpos hrate hother
    simp only [AdaptiveRateLimiter.adaptDelayBasedOnHistory, hEnabled, Bool.not_true,
      Bool.false_eq_true, if_false]
    rw [if_neg (by omega), if_neg (by linarith)]
    rcases hother with hle | hnd
    · rw [if_neg (by intro hc; linarith [hc.1])]
    · rw [if_neg (by intro hc; exact hnd hc.2)]

/-- Witness for C7 as amended: the ten-successes-then-four-failures state
falls in the unchanged band (10/14 is between 70 and 90 percent), so the
delay stays put. -/
theorem c7_adapt_characterization_witness :
    AdaptiveRateLimiter.adaptDelayBasedOnHistory
      (AdaptiveRateLimiter.stateOfOutcomes Fixtures.tenThenFour
        AdaptiveRateLimiter.initState) =
      AdaptiveRateLimiter.stateOfOutcomes Fixtures.tenThenFour
        AdaptiveRateLimiter.initState :=
  (c7_adapt_characterization _ (by decide) 10 4 (by decide) (by decide)).2.2.2
    (by decide) (by norm_num) (Or.inl (by norm_num))

/-- Counterexample to claim C9: micro-pauses are added after the clamp,
not before it, so the total returned by getNextDelay can exceed maxDelay.
Here the base delay is the minimum 2000 ms but a coffee-break micro-pause
of 75 s fires, and the total 77 s exceeds the 60 s maxDelay. -/
theorem c9_delay_counterexample :
    AdaptiveRateLimiter.initState.maxDelay <
      AdaptiveRateLimiter.getNextDelay AdaptiveRateLimiter.initState 9 1
        (1/2) (1/2) 0 (1/100) (1/2) (1/2) 0 := by
  norm_num [AdaptiveRateLimiter.getNextDelay, AdaptiveRateLimiter.calculateHumanDelay,
    AdaptiveRateLimiter.addMicroDelays, AdaptiveRateLimiter.circadianMultiplier,
    AdaptiveRateLimiter.initState, min_def, max_def]

/-- Claim C9 as amended: the clamp to the configured bounds applies to the
human base delay only; the micro-pauses of step (e) are added afterwards,
so the total delay is at least minDelay but is only bounded above by
maxDelay plus the maximal micro-pause total of 122 s (7 s thinking + 90 s
break + 25 s distraction). -/
theorem c9_delay_bounds (st : AdaptiveRateLimiter.LimiterState)
    (hour dayOfWeek : Nat) (rand t1 v1 t2 v2 t3 v3 : ℚ)
    (hmm : st.minDelay ≤ st.maxDelay)
    (hv1 : 0 ≤ v1 ∧ v1 < 1) (hv2 : 0 ≤ v2 ∧ v2 < 1) (hv3 : 0 ≤ v3 ∧ v3 < 1) :
    st.minDelay ≤
      AdaptiveRateLimiter.getNextDelay st hour dayOfWeek rand t1 v1 t2 v2 t3 v3 ∧
    AdaptiveRateLimiter.getNextDelay st hour dayOfWeek rand t1 v1 t2 v2 t3 v3 <
      st.maxDelay + 122000 := by
  have hbase_lo : st.minDelay ≤ AdaptiveRateLimiter.calculateHumanDelay st hour dayOfWeek rand := by
    unfold AdaptiveRateLimiter.calculateHumanDelay
    exact le_max_left _ _
  have hbase_hi : AdaptiveRateLimiter.calculateHumanDelay st hour dayOfWeek rand ≤ st.maxDelay := by
    unfold AdaptiveRateLimiter.calculateHumanDelay
    exact max_le hmm (min_le_left _ _)
  have hp1 : 0 ≤ (if t1 < 3/10 then v1 * 5000 + 2000 else (0:ℚ)) ∧
      (if t1 < 3/10 then v1 * 5000 + 2000 else (0:ℚ)) < 7000 := by
    constructor
    · split
      · nlinarith [hv1.1]
      · norm_num
    · split
      · nlinarith [hv1.2]
      · norm_num
  have hp2 : 0 ≤ (if t2 < 1/20 then v2 * 30000 + 60000 else (0:ℚ)) ∧
      (if t2 < 1/20 then v2 * 30000 + 60000 else (0:ℚ)) < 90000 := by
    constructor
    · split
      · nlinarith [hv2.1]
      · norm_num
    · split
      · nlinarith [hv2.2]
      · norm_num
  have hp3 : 0 ≤ (if t3 < 1/10 then v3 * 15000 + 10000 else (0:ℚ)) ∧
      (if t3 < 1/10 then v3 * 15000 + 10000 else (0:ℚ)) < 25000 := by
    constructor
    · split
      · nlinarith [hv3.1]
      · norm_num
    · split
      · nlinarith [hv3.2]
      · norm_num
  have hmicro_lo : 0 ≤ AdaptiveRateLimiter.addMicroDelays t1 v1 t2 v2 t3 v3 := by
    unfold AdaptiveRateLimiter.addMicroDelays
    linarith [hp1.1, hp2.1, hp3.1]
  have hmicro_hi : AdaptiveRateLimiter.addMicroDelays t1 v1 t2 v2 t3 v3 < 122000 := by
    unfold AdaptiveRateLimiter.addMicroDelays
    linarith [hp1.2, hp2.2, hp3.2]
  unfold AdaptiveRateLimiter.getNextDelay
  constructor
  · linarith
  · linarith

/-- Witness for C9 as amended, at the counterexample inputs: the total of
77 s lies between minDelay 2 s and maxDelay 60 s plus 122 s. -/
theorem c9_delay_bounds_witness :
    AdaptiveRateLimiter.initState.minDelay ≤
      AdaptiveRateLimiter.getNextDelay AdaptiveRateLimiter.initState 9 1
        (1/2) (1/2) 0 (1/100) (1/2) (1/2) 0 ∧
    AdaptiveRateLimiter.getNextDelay AdaptiveRateLimiter.initState 9 1
        (1/2) (1/2) 0 (1/100) (1/2) (1/2) 0 <
      AdaptiveRateLimiter.initState.maxDelay + 122000 :=
  c9_delay_bounds AdaptiveRateLimiter.initState 9 1 (1/2) (1/2) 0 (1/100) (1/2) (1/2) 0
    (by decide) (by constructor <;> norm_num) (by constructor <;> norm_num)
    (by constructor <;> norm_num)

/-- Helper: a successfully extracted result carries position equal to its
container index plus one and a link that is not self-referential. -/
theorem extractFromContainer_some {i : Nat} {c : ResultParsing.Container}
    {r : ResultParsing.ParsedResult}
    (h : ResultParsing.extractFromContainer i c = some r) :
    r.position = i + 1 ∧ ResultParsing.isSelfLink r.link = false := by
  unfold ResultParsing.extractFromContainer at h
  split at h
  · split_ifs at h with hcond
    · cases h
      exact ⟨rfl, by simpa using hcond.2.2⟩
  · cases h

/-- Helper: when every indexed container extracts, the loop keeps them
all, and the positions read off the indices. -/
theorem filterMap_extract_all_some (l : List (Nat × ResultParsing.Container))
    (h : ∀ p ∈ l, (ResultParsing.extractFromContainer p.1 p.2).isSome) :
    (l.filterMap (fun p => ResultParsing.extractFromContainer p.1 p.2)).map
        (fun r => r.position) = l.map (fun p => p.1 + 1) ∧
    (l.filterMap (fun p => ResultParsing.extractFromContainer p.1 p.2)).length =
      l.length := by
  induction l with
  | nil => simp
  | cons p l ih =>
    have hp := h p (List.mem_cons_self p l)
    obtain ⟨r, hr⟩ := Option.isSome_iff_exists.mp hp
    have ihh := ih (fun q hq => h q (List.mem_cons_of_mem p hq))
    have hpos := (extractFromContainer_some hr).1
    simp only [List.filterMap_cons, hr, List.map_cons, List.length_cons]
    exact ⟨by rw [hpos, ihh.1], by rw [ihh.2]⟩

/-- Counterexample to claim C3: a raw page of seven containers where the
second container carries only a self-referential link, searched with
limit 5.  The returned list has four results, not five, and the positions
are 1, 3, 4, 5 — the container indices — rather than the contiguous
sequence 1..5. -/
theorem c3_positions_counterexample :
    (ResultParsing.extractSearchResults Fixtures.pageWithSelfLink 5).length = 4 ∧
    (ResultParsing.extractSearchResults Fixtures.pageWithSelfLink 5).map
        (fun r => r.position) = [1, 3, 4, 5] ∧
    ¬ ((ResultParsing.extractSearchResults Fixtures.pageWithSelfLink 5).length = 5 ∧
       (ResultParsing.extractSearchResults Fixtures.pageWithSelfLink 5).map
         (fun r => r.position) = [1, 2, 3, 4, 5]) := by
  refine ⟨by decide, by decide, ?_⟩
  intro hcl
  simp only [show (ResultParsing.extractSearchResults Fixtures.pageWithSelfLink 5).length = 4
    from by decide] at hcl
  omega

/-- Claim C3 as amended: the returned list never exceeds the requested
limit and no returned link is self-referential, but each position equals
one plus the index of its container on the page, so the positions form
the contiguous sequence 1..limit exactly when every one of the first
limit containers yields a result; when a container is skipped the list is
shorter than the limit and its positions have a gap. -/
theorem c3_results_properties (containers : List ResultParsing.Container)
    (limit : Nat) :
    (ResultParsing.extractSearchResults containers limit).length ≤ limit ∧
    (∀ r ∈ ResultParsing.extractSearchResults containers limit,
      ResultParsing.isSelfLink r.link = false) ∧
    (limit ≤ containers.length →
      (∀ p ∈ (containers.take limit).enum,
        (ResultParsing.extractFromContainer p.1 p.2).isSome) →
      (ResultParsing.extractSearchResults containers limit).map
          (fun r => r.position) = (List.range limit).map (fun i => i + 1) ∧
      (ResultParsing.extractSearchResults containers limit).length = limit) := by
  refine ⟨?_, ?_, ?_⟩
  · calc (ResultParsing.extractSearchResults containers limit).length
        ≤ (containers.take limit).enum.length :=
          List.length_filterMap_le _ _
      _ = (containers.take limit).length := List.enum_length
      _ ≤ limit := by rw [List.length_take]; omega
  · intro r hr
    obtain ⟨p, _, hp⟩ := List.mem_filterMap.mp hr
    exact (extractFromContainer_some hp).2
  · intro hlen hall
    have hax := filterMap_extract_all_some _ hall
    have htl : (containers.take limit).length = limit := by
      rw [List.length_take]; omega
    constructor
    · rw [ResultParsing.extractSearchResults, hax.1]
      have : ((containers.take limit).enum).map (fun p => p.1 + 1) =
          (((containers.take limit).enum).map Prod.fst).map (fun i => i + 1) := by
        rw [List.map_map]
        rfl
      rw [this, List.enum_map_fst, htl]
    · rw [ResultParsing.extractSearchResults, hax.2, List.enum_length, htl]

/-- Witness for C3 as amended: the clean seven-container page with limit 5
yields exactly five results with contiguous positions 1..5. -/
theorem c3_results_properties_witness :
    (ResultParsing.extractSearchResults Fixtures.cleanPage 5).map
        (fun r => r.position) = (List.range 5).map (fun i => i + 1) ∧
    (ResultParsing.extractSearchResults Fixtures.cleanPage 5).length = 5 :=
  (c3_results_properties Fixtures.cleanPage 5).2.2 (by decide) (by decide)

/-- Helper: every platform name produced by detectPlatform is a nonempty
string. -/
theorem detectPlatform_platform_truthy (u : Extraction.UrlParts) :
    strTruthy (Extraction.detectPlatform u).platform = true := by
  simp only [Extraction.detectPlatform]
  split_ifs <;> rfl

/-- Helper: the four shapes an extractContent result can take — the
pre-navigation advisory, the post-navigation LinkedIn advisory, the
empty-content advisory, and the normal content. -/
theorem extractContent_shape (u : Extraction.UrlParts) (urlStr : String)
    (fullPage : Bool) (page : Extraction.PageData) :
    ((Extraction.extractContent u urlStr fullPage page).1.platform = some "linkedin" ∧
      (Extraction.extractContent u urlStr fullPage page).1.loginRequired = false ∧
      (Extraction.extractContent u urlStr fullPage page).1.isEmpty = false ∧
      (Extraction.extractContent u urlStr fullPage page).1.extractionType =
        "authentication-required") ∨
    ((Extraction.extractContent u urlStr fullPage page).1.platform = some "linkedin" ∧
      (Extraction.extractContent u urlStr fullPage page).1.loginRequired = true ∧
      (Extraction.extractContent u urlStr fullPage page).1.isEmpty = false ∧
      (Extraction.extractContent u urlStr fullPage page).1.extractionType =
        "authentication-blocked") ∨
    ((Extraction.extractContent u urlStr fullPage page).1.platform =
        some (Extraction.detectPlatform u).platform ∧
      (Extraction.extractContent u urlStr fullPage page).1.loginRequired = false ∧
      (Extraction.extractContent u urlStr fullPage page).1.isEmpty = true ∧
      (Extraction.extractContent u urlStr fullPage page).1.extractionType =
        "empty-content") ∨
    ((Extraction.extractContent u urlStr fullPage page).1.platform = none ∧
      (Extraction.extractContent u urlStr fullPage page).1.loginRequired = false ∧
      (Extraction.extractContent u urlStr fullPage page).1.isEmpty = false ∧
      ((Extraction.extractContent u urlStr fullPage page).1.extractionType = "full-page" ∨
        (Extraction.extractContent u urlStr fullPage page).1.extractionType =
          "main-content")) := by
  unfold Extraction.extractContent
  cases h1 : Extraction.isLinkedinAuthWall (Extraction.detectPlatform u)
  case true => simp [h1]
  case false =>
    cases h2 : Extraction.linkedinBlockCheck (Extraction.detectPlatform u) page
    case true => simp [h1, h2]
    case false =>
      cases h3 : Extraction.emptyContentCheck (Extraction.detectPlatform u) page
      case true => simp [h1, h2, h3]
      case false =>
        cases fullPage <;> simp [h1, h2, h3]

/-- Counterexample to claim C4: the pre-navigation authentication
short-circuit of extractContent returns the authentication-required
advisory without the loginRequired or isEmpty flags, so the /extract
handler of server.js answers 200 without suggestions or message, not 422,
for a LinkedIn profile URL. -/
theorem c4_short_circuit_counterexample :
    (Extraction.extractContent Fixtures.linkedinProfileUrl
        "https://www.linkedin.com/in/alice" false Fixtures.blankPage).1.extractionType =
      "authentication-required" ∧
    Extraction.extractRespond
        (Extraction.extractContent Fixtures.linkedinProfileUrl
          "https://www.linkedin.com/in/alice" false Fixtures.blankPage).1 =
      ⟨200, false, false⟩ := by
  constructor <;> decide

/-- Claim C4 as amended: the /extract handler answers 422 with a
suggestions object and a message for every extracted content whose
loginRequired or isEmpty flag is set — the post-navigation
authentication advisory and the empty-content advisory — but the
pre-navigation authentication short-circuit advisory carries neither flag
and is answered 200 without suggestions or message. -/
theorem c4_respond_classification (u : Extraction.UrlParts) (urlStr : String)
    (fullPage : Bool) (page : Extraction.PageData) :
    ((Extraction.extractContent u urlStr fullPage page).1.loginRequired = true ∨
      (Extraction.extractContent u urlStr fullPage page).1.isEmpty = true →
      Extraction.extractRespond (Extraction.extractContent u urlStr fullPage page).1 =
        ⟨422, true, true⟩) ∧
    ((Extraction.extractContent u urlStr fullPage page).1.extractionType =
        "authentication-required" →
      Extraction.extractRespond (Extraction.extractContent u urlStr fullPage page).1 =
        ⟨200, false, false⟩) := by
  have hshape := extractContent_shape u urlStr fullPage page
  have htruthy := detectPlatform_platform_truthy u
  have hlink : strTruthy "linkedin" = true := by decide
  rcases hshape with ⟨hp, hl, he, ht⟩ | ⟨hp, hl, he, ht⟩ | ⟨hp, hl, he, ht⟩ | ⟨hp, hl, he, ht⟩
  · refine ⟨fun hflag => ?_, fun _ => ?_⟩
    · rw [hl, he] at hflag
      simp at hflag
    · simp [Extraction.extractRespond, hp, hl, he, hlink]
  · refine ⟨fun _ => ?_, fun habs => ?_⟩
    · simp [Extraction.extractRespond, hp, hl, hlink]
    · rw [ht] at habs
      simp at habs
  · refine ⟨fun _ => ?_, fun habs => ?_⟩
    · simp [Extraction.extractRespond, hp, he, htruthy]
    · rw [ht] at habs
      simp at habs
  · refine ⟨fun hflag => ?_, fun habs => ?_⟩
    · rw [hl, he] at hflag
      simp at hflag
    · rcases ht with ht | ht <;> rw [ht] at habs <;> simp at habs

/-- Witness for C4 as amended: a LinkedIn company URL navigated to a
blank page produces the post-navigation advisory, answered 422 with
suggestions and message; the profile URL short-circuit is answered 200. -/
theorem c4_respond_classification_witness :
    Extraction.extractRespond
        (Extraction.extractContent Fixtures.linkedinCompanyUrl
          "https://www.linkedin.com/company/acme" false Fixtures.blankPage).1 =
      ⟨422, true, true⟩ ∧
    Extraction.extractRespond
        (Extraction.extractContent Fixtures.linkedinProfileUrl
          "https://www.linkedin.com/in/alice" false Fixtures.blankPage).1 =
      ⟨200, false, false⟩ :=
  ⟨(c4_respond_classification Fixtures.linkedinCompanyUrl
      "https://www.linkedin.com/company/acme" false Fixtures.blankPage).1
      (Or.inl (by decide)),
   (c4_respond_classification Fixtures.linkedinProfileUrl
      "https://www.linkedin.com/in/alice" false Fixtures.blankPage).2 (by decide)⟩

/-- Counterexample to claim C8: a Facebook profile URL is classified as
requiring authentication with no public-content exception, yet
extractContent performs a navigation (count 1, not 0) instead of
returning a pre-navigation advisory. -/
theorem c8_facebook_counterexample :
    (Extraction.detectPlatform Fixtures.facebookProfileUrl).requiresAuth = true ∧
    (Extraction.detectPlatform Fixtures.facebookProfileUrl).publicContentPossible = false ∧
    (Extraction.extractContent Fixtures.facebookProfileUrl
        "https://www.facebook.com/zuck" false Fixtures.blankPage).2 = 1 := by
  refine ⟨by decide, by decide, by decide⟩

/-- Claim C8 as amended: the pre-navigation short-circuit fires only for
LinkedIn URLs: whenever detectPlatform classifies the URL as the linkedin
platform requiring authentication with no public-content exception,
extractContent returns the authentication-required advisory with zero
navigations performed; auth-walled URLs of other platforms are still
navigated. -/
theorem c8_no_navigation_on_linkedin_wall (u : Extraction.UrlParts)
    (urlStr : String) (fullPage : Bool) (page : Extraction.PageData)
    (hplat : (Extraction.detectPlatform u).platform = "linkedin")
    (hauth : (Extraction.detectPlatform u).requiresAuth = true)
    (hpub : (Extraction.detectPlatform u).publicContentPossible = false) :
    (Extraction.extractContent u urlStr fullPage page).2 = 0 ∧
    (Extraction.extractContent u urlStr fullPage page).1.extractionType =
      "authentication-required" := by
  have hwall : Extraction.isLinkedinAuthWall (Extraction.detectPlatform u) = true := by
    simp [Extraction.isLinkedinAuthWall, hplat, hauth, hpub]
  simp only [Extraction.extractContent]
  rw [hwall]
  simp

/-- Witness for C8 as amended: the LinkedIn profile URL short-circuits
with zero navigations. -/
theorem c8_no_navigation_witness :
    (Extraction.extractContent Fixtures.linkedinProfileUrl
        "https://www.linkedin.com/in/alice" false Fixtures.blankPage).2 = 0 ∧
    (Extraction.extractContent Fixtures.linkedinProfileUrl
        "https://www.linkedin.com/in/alice" false Fixtures.blankPage).1.extractionType =
      "authentication-required" :=
  c8_no_navigation_on_linkedin_wall Fixtures.linkedinProfileUrl
    "https://www.linkedin.com/in/alice" false Fixtures.blankPage
    (by decide) (by decide) (by decide)

/-- Helper: setting a key in the failure map makes it read back. -/
theorem mapGet_mapSet_self (m : ProxyRotation.FailureMap) (k : String)
    (v : ProxyRotation.FailureRec) :
    ProxyRotation.mapGet (ProxyRotation.mapSet m k v) k = some v := by
  induction m with
  | nil => simp [ProxyRotation.mapGet, ProxyRotation.mapSet]
  | cons a m ih =>
    obtain ⟨k2, v2⟩ := a
    by_cases hak : k2 = k
    · simp [ProxyRotation.mapSet, ProxyRotation.mapGet, hak]
    · simp [ProxyRotation.mapSet, ProxyRotation.mapGet, hak, ih]

/-- Helper: deleting a key from the failure map removes it. -/
theorem mapGet_mapDel_self (m : ProxyRotation.FailureMap) (k : String) :
    ProxyRotation.mapGet (ProxyRotation.mapDel m k) k = none := by
  induction m with
  | nil => rfl
  | cons a m ih =>
    obtain ⟨k2, v2⟩ := a
    by_cases hak : k2 = k
    · simp [ProxyRotation.mapDel, hak, ih]
    · simp [ProxyRotation.mapDel, ProxyRotation.mapGet, hak, ih]

/-- Helper: deleting one key leaves the other keys unchanged. -/
theorem mapGet_mapDel_ne (m : ProxyRotation.FailureMap) (k k2 : String)
    (hne : k ≠ k2) :
    ProxyRotation.mapGet (ProxyRotation.mapDel m k2) k = ProxyRotation.mapGet m k := by
  induction m with
  | nil => rfl
  | cons a m ih =>
    obtain ⟨k3, v3⟩ := a
    have hk2 : k2 ≠ k := Ne.symm hne
    by_cases hak : k3 = k2
    · have hk3 : k3 ≠ k := by rw [hak]; exact hk2
      simp [ProxyRotation.mapDel, ProxyRotation.mapGet, hak, hk3, hk2, ih]
    · by_cases hk3 : k3 = k
      · simp [ProxyRotation.mapDel, ProxyRotation.mapGet, hak, hk3, hne]
      · simp [ProxyRotation.mapDel, ProxyRotation.mapGet, hak, hk3, ih]

/-- Helper: a deleted key never resurrects an absent entry. -/
theorem mapGet_none_mapDel (m : ProxyRotation.FailureMap) (k k2 : String)
    (h : ProxyRotation.mapGet m k = none) :
    ProxyRotation.mapGet (ProxyRotation.mapDel m k2) k = none := by
  by_cases hk : k = k2
  · subst hk; exact mapGet_mapDel_self m k
  · rw [mapGet_mapDel_ne m k k2 hk]; exact h

/-- Helper: the least-recently-used selection returns a member of the
candidate list. -/
theorem selectLRU_mem (u : ProxyRotation.UsageMap) :
    ∀ (l : List ProxyRotation.ProxyConf) (q : ProxyRotation.ProxyConf),
      ProxyRotation.selectLRU u l = some q → q ∈ l := by
  intro l
  induction l with
  | nil => intro q h; cases h
  | cons p ps ih =>
    intro q h
    unfold ProxyRotation.selectLRU at h
    cases hs : ProxyRotation.selectLRU u ps with
    | none =>
      rw [hs] at h
      cases h
      exact List.mem_cons_self _ _
    | some q2 =>
      rw [hs] at h
      have h2 : (if ProxyRotation.usageGet u (ProxyRotation.proxyKey q2) <
          ProxyRotation.usageGet u (ProxyRotation.proxyKey p) then some q2
          else some p) = some q := h
      split_ifs at h2
      · cases h2
        exact List.mem_cons_of_mem _ (ih _ hs)
      · cases h2
        exact List.mem_cons_self _ _

/-- Helper: one health-filter step either keeps the failure map or deletes
the record of the proxy it examined. -/
theorem healthFilterStep_snd (m : ProxyRotation.FailureMap)
    (p : ProxyRotation.ProxyConf) (now : Int) :
    (ProxyRotation.healthFilterStep m p now).2 = m ∨
    (ProxyRotation.healthFilterStep m p now).2 =
      ProxyRotation.mapDel m (ProxyRotation.proxyKey p) := by
  simp only [ProxyRotation.healthFilterStep]
  split_ifs <;> simp

/-- Helper: a quarantined key (three or more failures, still inside the
cooldown window) survives the health filter untouched, and no proxy
bearing that key is kept. -/
theorem filterHealthy_quarantined (k : String) (r : ProxyRotation.FailureRec)
    (hcount : 3 ≤ r.count) :
    ∀ (l : List ProxyRotation.ProxyConf) (m : ProxyRotation.FailureMap) (now : Int),
      ProxyRotation.mapGet m k = some r →
      now - r.lastFailure < ProxyRotation.PROXY_COOLDOWN_TIME →
      (∀ q ∈ (ProxyRotation.filterHealthy l m now).1, ProxyRotation.proxyKey q ≠ k) ∧
      ProxyRotation.mapGet (ProxyRotation.filterHealthy l m now).2 k = some r := by
  intro l
  induction l with
  | nil =>
    intro m now hget _
    exact ⟨by simp [ProxyRotation.filterHealthy],
      by simpa [ProxyRotation.filterHealthy] using hget⟩
  | cons p ps ih =>
    intro m now hget hcool
    by_cases hk : ProxyRotation.proxyKey p = k
    · have hstep : ProxyRotation.healthFilterStep m p now = (false, m) := by
        unfold ProxyRotation.healthFilterStep
        rw [hk, hget]
        simp only [Option.getD_some]
        rw [if_pos (show ProxyRotation.MAX_FAILURES_PER_PROXY ≤ r.count from hcount),
          if_pos hcool]
      have ihh := ih m now hget hcool
      constructor
      · intro q hq
        apply ihh.1
        simpa [ProxyRotation.filterHealthy, hstep] using hq
      · simpa [ProxyRotation.filterHealthy, hstep] using ihh.2
    · have hpres : ProxyRotation.mapGet (ProxyRotation.healthFilterStep m p now).2 k =
          some r := by
        rcases healthFilterStep_snd m p now with hsnd | hsnd
        · rw [hsnd]; exact hget
        · rw [hsnd, mapGet_mapDel_ne _ k _ (fun hc => hk hc.symm)]; exact hget
      have ihh := ih _ now hpres hcool
      constructor
      · intro q hq
        simp only [ProxyRotation.filterHealthy] at hq
        by_cases hb : (ProxyRotation.healthFilterStep m p now).1 = true
        · rw [if_pos hb] at hq
          rcases List.mem_cons.mp hq with hq | hq
          · subst hq; exact hk
          · exact ihh.1 q hq
        · rw [if_neg hb] at hq
          exact ihh.1 q hq
      · simp only [ProxyRotation.filterHealthy]
        exact ihh.2

/-- Helper: a key absent from the failure map stays absent through the
health filter. -/
theorem filterHealthy_none :
    ∀ (l : List ProxyRotation.ProxyConf) (m : ProxyRotation.FailureMap)
      (now : Int) (k : String),
      ProxyRotation.mapGet m k = none →
      ProxyRotation.mapGet (ProxyRotation.filterHealthy l m now).2 k = none := by
  intro l
  induction l with
  | nil =>
    intro m now k h
    simpa [ProxyRotation.filterHealthy] using h
  | cons p ps ih =>
    intro m now k h
    have hpres : ProxyRotation.mapGet (ProxyRotation.healthFilterStep m p now).2 k = none := by
      rcases healthFilterStep_snd m p now with hsnd | hsnd
      · rw [hsnd]; exact h
      · rw [hsnd]; exact mapGet_none_mapDel m k _ h
    simp only [ProxyRotation.filterHealthy]
    exact ih _ now k hpres

/-- Helper: a proxy whose failure record is absent or expired (three or
more failures with the cooldown elapsed) is kept by the health filter,
and afterwards its failure record is gone. -/
theorem filterHealthy_eligible (r : ProxyRotation.FailureRec) :
    ∀ (l : List ProxyRotation.ProxyConf) (m : ProxyRotation.FailureMap)
      (now : Int) (p : ProxyRotation.ProxyConf),
      (ProxyRotation.mapGet m (ProxyRotation.proxyKey p) = none ∨
        (ProxyRotation.mapGet m (ProxyRotation.proxyKey p) = some r ∧ 3 ≤ r.count ∧
          ProxyRotation.PROXY_COOLDOWN_TIME ≤ now - r.lastFailure)) →
      p ∈ l →
      p ∈ (ProxyRotation.filterHealthy l m now).1 ∧
      ProxyRotation.mapGet (ProxyRotation.filterHealthy l m now).2
        (ProxyRotation.proxyKey p) = none := by
  intro l
  induction l with
  | nil =>
    intro m now p _ hmem
    cases hmem
  | cons q ps ih =>
    intro m now p hyp hmem
    by_cases hpq : p = q
    · subst hpq
      rcases hyp with hnone | ⟨hsome, hcount, hcool⟩
      · have hstep : ProxyRotation.healthFilterStep m p now = (true, m) := by
          unfold ProxyRotation.healthFilterStep
          rw [hnone]
          rfl
        refine ⟨by simp [ProxyRotation.filterHealthy, hstep], ?_⟩
        simp only [ProxyRotation.filterHealthy, hstep]
        exact filterHealthy_none ps m now _ hnone
      · have hstep : ProxyRotation.healthFilterStep m p now =
            (true, ProxyRotation.mapDel m (ProxyRotation.proxyKey p)) := by
          unfold ProxyRotation.healthFilterStep
          rw [hsome]
          simp only [Option.getD_some]
          rw [if_pos (show ProxyRotation.MAX_FAILURES_PER_PROXY ≤ r.count from hcount),
            if_neg (by omega)]
        refine ⟨by simp [ProxyRotation.filterHealthy, hstep], ?_⟩
        simp only [ProxyRotation.filterHealthy, hstep]
        exact filterHealthy_none ps _ now _ (mapGet_mapDel_self m _)
    · have hmem2 : p ∈ ps := by
        rcases List.mem_cons.mp hmem with h | h
        · exact absurd h hpq
        · exact h
      have hyp2 : ProxyRotation.mapGet (ProxyRotation.healthFilterStep m q now).2
            (ProxyRotation.proxyKey p) = none ∨
          (ProxyRotation.mapGet (ProxyRotation.healthFilterStep m q now).2
              (ProxyRotation.proxyKey p) = some r ∧ 3 ≤ r.count ∧
            ProxyRotation.PROXY_COOLDOWN_TIME ≤ now - r.lastFailure) := by
        rcases healthFilterStep_snd m q now with hsnd | hsnd
        · rw [hsnd]; exact hyp
        · rw [hsnd]
          rcases hyp with hnone | ⟨hsome, hcount, hcool⟩
          · exact Or.inl (mapGet_none_mapDel m _ _ hnone)
          · by_cases hkeq : ProxyRotation.proxyKey p = ProxyRotation.proxyKey q
            · exact Or.inl (hkeq ▸ mapGet_mapDel_self m _)
            · exact Or.inr ⟨by rw [mapGet_mapDel_ne m _ _ hkeq]; exact hsome, hcount, hcool⟩
      have ihh := ih _ now p hyp2 hmem2
      constructor
      · simp only [ProxyRotation.filterHealthy]
        by_cases hb : (ProxyRotation.healthFilterStep m q now).1 = true
        · rw [if_pos hb]
          exact List.mem_cons_of_mem _ ihh.1
        · rw [if_neg hb]
          exact ihh.1
      · simp only [ProxyRotation.filterHealthy]
        exact ihh.2

/-- Claim C5: after three reportProxyFailure calls on an endpoint with a
fresh failure record, the record reads three failures stamped with the
last failure time; while less than thirty minutes have passed since that
last failure, selectHealthyProxy (without an environment override)
never returns any proxy bearing that endpoint key; once thirty minutes or
more have passed, the endpoint passes the health filter again and its
failure record is deleted, resetting the count to zero. -/
theorem c5_quarantine_lifecycle (p : ProxyRotation.ProxyConf)
    (m0 : ProxyRotation.FailureMap)
    (h0 : ProxyRotation.mapGet m0 (ProxyRotation.proxyKey p) = none)
    (t1 t2 t3 : Int) (m3 : ProxyRotation.FailureMap)
    (hm3 : m3 = ProxyRotation.reportProxyFailure (ProxyRotation.reportProxyFailure
      (ProxyRotation.reportProxyFailure m0 p t1) p t2) p t3) :
    ProxyRotation.mapGet m3 (ProxyRotation.proxyKey p) = some ⟨3, t3⟩ ∧
    (∀ (now : Int) (poolType : String)
        (residential datacenter : List ProxyRotation.ProxyConf)
        (usage : ProxyRotation.UsageMap) (q : ProxyRotation.ProxyConf),
      now - t3 < ProxyRotation.PROXY_COOLDOWN_TIME →
      (ProxyRotation.selectHealthyProxy none poolType residential datacenter
        m3 usage now).1 = some q →
      ProxyRotation.proxyKey q ≠ ProxyRotation.proxyKey p) ∧
    (∀ (now : Int) (poolType : String)
        (residential datacenter : List ProxyRotation.ProxyConf),
      ProxyRotation.PROXY_COOLDOWN_TIME ≤ now - t3 →
      p ∈ ProxyRotation.availableProxies poolType residential datacenter →
      p ∈ (ProxyRotation.filterHealthy
            (ProxyRotation.availableProxies poolType residential datacenter) m3 now).1 ∧
      ProxyRotation.mapGet (ProxyRotation.filterHealthy
            (ProxyRotation.availableProxies poolType residential datacenter) m3 now).2
        (ProxyRotation.proxyKey p) = none) := by
  have h1 : ProxyRotation.mapGet (ProxyRotation.reportProxyFailure m0 p t1)
      (ProxyRotation.proxyKey p) = some ⟨1, t1⟩ := by
    simp [ProxyRotation.reportProxyFailure, h0, mapGet_mapSet_self]
  have h2 : ProxyRotation.mapGet (ProxyRotation.reportProxyFailure
        (ProxyRotation.reportProxyFailure m0 p t1) p t2)
      (ProxyRotation.proxyKey p) = some ⟨2, t2⟩ := by
    simp [ProxyRotation.reportProxyFailure, h0, h1, mapGet_mapSet_self]
  have h3 : ProxyRotation.mapGet m3 (ProxyRotation.proxyKey p) = some ⟨3, t3⟩ := by
    rw [hm3]
    simp [ProxyRotation.reportProxyFailure, h0, h1, h2, mapGet_mapSet_self]
  refine ⟨h3, ?_, ?_⟩
  · intro now poolType residential datacenter usage q hcool hsel
    have hq := filterHealthy_quarantined (ProxyRotation.proxyKey p) ⟨3, t3⟩
      (by norm_num)
      (ProxyRotation.availableProxies poolType residential datacenter) m3 now h3
      (by simpa using hcool)
    simp only [ProxyRotation.selectHealthyProxy] at hsel
    split at hsel
    · simp at hsel
    · split at hsel
      · simp at hsel
      · split at hsel
        · rename_i sel hsl
          simp only [Option.some.injEq] at hsel
          subst hsel
          exact hq.1 sel (selectLRU_mem usage _ sel hsl)
        · simp at hsel
  · intro now poolType residential datacenter hcool hmem
    exact filterHealthy_eligible ⟨3, t3⟩
      (ProxyRotation.availableProxies poolType residential datacenter) m3 now p
      (Or.inr ⟨h3, by norm_num, by simpa using hcool⟩) hmem

/-- Witness for C5: the sample proxy with three failures at times 1000,
2000 and 3000; at time 4000 it cannot be selected from a singleton pool,
and at time 1803000 (thirty minutes past the last failure) it passes the
health filter with its record deleted. -/
theorem c5_quarantine_lifecycle_witness :
    ProxyRotation.mapGet Fixtures.quarantinedFailures
        (ProxyRotation.proxyKey Fixtures.sampleProxy) = some ⟨3, 3000⟩ ∧
    ((ProxyRotation.selectHealthyProxy none "any" [Fixtures.sampleProxy] []
        Fixtures.quarantinedFailures [] 4000).1 = some Fixtures.sampleProxy → False) ∧
    Fixtures.sampleProxy ∈ (ProxyRotation.filterHealthy
        (ProxyRotation.availableProxies "any" [Fixtures.sampleProxy] [])
        Fixtures.quarantinedFailures 1803000).1 := by
  have h := c5_quarantine_lifecycle Fixtures.sampleProxy [] rfl 1000 2000 3000
    Fixtures.quarantinedFailures rfl
  refine ⟨h.1, ?_, ?_⟩
  · intro hsel
    exact h.2.1 4000 "any" [Fixtures.sampleProxy] [] [] Fixtures.sampleProxy
      (by decide) hsel rfl
  · exact (h.2.2 1803000 "any" [Fixtures.sampleProxy] [] (by decide) (by decide)).1
